import Mathlib

/-!
Verification development for the manifold-farmer trading agent.

The TypeScript sources are embedded shallowly over `ℚ`:
* JS `number` arithmetic is modelled by exact rational arithmetic
  (`Math.round` becomes `jsRound`, `Math.min`/`Math.max` become `min`/`max`,
  `Math.abs` becomes `|·|`).  The degenerate IEEE-754 cases (`NaN`,
  `Infinity`, division by `0`) are kept out of scope by explicit
  positivity hypotheses where the code divides by an input.
* `Date.now()`, `randomUUID()` and `new Date().toISOString()` are injected
  as explicit parameters (`now`, `traceId`, `timestamp`, `nowIso`).
* The regular-expression classifiers (`FAST_RESOLUTION_PATTERNS`,
  `isFinanceMarket`, `isSportsMarket`) are injected as opaque-to-the-model
  `String → Bool` parameters; every theorem quantifies over them.
* Network and chain reads (`getMarket`, `payoutDenominator` /
  `payoutNumerators`) are injected as functions returning `Option`:
  `none` models a thrown/transient error (the code logs and skips).
-/

namespace ManifoldFarmer

/-- JS `Math.round`: round half toward positive infinity (`⌊x + 1/2⌋`).
`Rat.floor` is used directly so concrete values reduce. -/
def jsRound (x : ℚ) : ℤ := Rat.floor (x + 1/2)

/-- JS truthiness of an optional string (`undefined` and `""` are falsy). -/
def jsTruthyStr (o : Option String) : Bool := o.getD "" ≠ ""

/-- JS truthiness of an optional number (`undefined` and `0` are falsy;
`NaN` is out of the rational model). -/
def jsTruthyNum (o : Option ℚ) : Bool := o.getD 0 ≠ 0

/-- Bet direction (the TS string union `"YES" | "NO"`). -/
inductive Dir where
  | yes
  | no
deriving DecidableEq

/-- Trading venue (the TS string union `"manifold" | "polymarket"`). -/
inductive Venue where
  | manifold
  | polymarket
deriving DecidableEq

/-- Decision outcome (`TradeDecision.action` in `types.ts`). -/
inductive TAction where
  | bet
  | skipLowEdge
  | skipNegativeKelly
  | skipLowConfidence
  | skipError
deriving DecidableEq

/-- Venue resolution outcome (`"YES" | "NO" | "MKT" | "CANCEL"`). -/
inductive ResOutcome where
  | yes
  | no
  | mkt
  | cancel
deriving DecidableEq

/-- Outcome space of the P&L helpers in `pnl.ts` (`"YES" | "NO" | "MKT"`). -/
inductive MktRes where
  | yes
  | no
  | mkt
deriving DecidableEq

/-- `Config` from `types.ts`, restricted to the numeric fields the embedded
code reads.  `maxImpactPct` is declared in the TS interface but — as proved
below — never read by the current sizing code. -/
structure Config where
  edgeThreshold : ℚ
  kellyFraction : ℚ
  maxPositionPct : ℚ
  maxBetAmount : ℚ
  minLiquidity : ℚ
  maxImpactPct : ℚ
  polyMaxBetAmount : ℚ
deriving DecidableEq

/-- `ManifoldMarket` from `types.ts` (fields the embedded code reads).
`descriptionStr` is `description` when it is a string; a TipTap-object
description is modelled as `none` (the decision code ignores objects). -/
structure ManifoldMarket where
  id : String
  question : String
  url : String
  probability : ℚ
  totalLiquidity : ℚ
  volume : ℚ
  closeTime : ℤ
  createdTime : ℤ
  outcomeType : String
  mechanism : String
  isResolved : Bool
  resolution : Option ResOutcome := none
  resolutionProbability : Option ℚ := none
  uniqueBettorCount : Option ℤ := none
  textDescription : Option String := none
  descriptionStr : Option String := none
deriving DecidableEq

/-- `ClaudeEstimate` from `types.ts`. -/
structure ClaudeEstimate where
  probability : ℚ
  confidence : String
  reasoning : String
deriving DecidableEq

/-- `TradeDecision` from `types.ts` (current shape, as populated by
`makeDecision` in `strategy.ts`).  `closeTime` keeps the numeric close
time whose ISO rendering the source stores. -/
structure TradeDecision where
  traceId : String
  timestamp : String
  marketId : String
  question : String
  marketUrl : String
  marketProb : ℚ
  estimate : ℚ
  confidence : String
  reasoning : String
  edge : ℚ
  venue : Venue
  liquidity : ℚ
  closeTime : ℤ
  uniqueBettorCount : ℤ
  description : String
  direction : Option Dir
  kellyFraction : ℚ
  effectiveProb : ℚ
  betAmount : ℚ
  action : TAction
deriving DecidableEq

/- ------------------------------------------------------------------ -/
/- strategy.ts                                                         -/
/- ------------------------------------------------------------------ -/

def oneHourMs : ℤ := 60 * 60 * 1000

def ninetyDaysMs : ℤ := 90 * 24 * oneHourMs

def sevenDaysMs : ℤ := 7 * 24 * oneHourMs

/-- `resolutionSpeedScore` from `strategy.ts`.  `patternTest` stands for
`FAST_RESOLUTION_PATTERNS.some((p) => p.test(question))`. -/
def resolutionSpeedScore (patternTest : String → Bool) (now : ℤ)
    (market : ManifoldMarket) : ℚ :=
  let timeToClose := market.closeTime - now
  let timeScore : ℚ :=
    if timeToClose ≤ sevenDaysMs then 50
    else if timeToClose ≤ ninetyDaysMs then
      50 * (1 - ((timeToClose : ℚ) - (sevenDaysMs : ℚ)) /
        ((ninetyDaysMs : ℚ) - (sevenDaysMs : ℚ)))
    else 0
  let patternScore : ℚ := if patternTest market.question then 30 else 0
  let liqScore : ℚ := min 20 (market.totalLiquidity / 5000 * 20)
  timeScore + patternScore + liqScore

/-- `filterMarkets` from `strategy.ts`: eligibility filter followed by the
sort on `resolutionSpeedScore` (descending). -/
def filterMarkets (patternTest : String → Bool) (now : ℤ)
    (markets : List ManifoldMarket) (config : Config) : List ManifoldMarket :=
  let filtered := markets.filter fun m =>
    if m.outcomeType ≠ "BINARY" then false
    else if m.isResolved then false
    else if m.totalLiquidity < config.minLiquidity then false
    else
      let timeToClose := m.closeTime - now
      if timeToClose < oneHourMs then false
      else if timeToClose > ninetyDaysMs then false
      else if m.uniqueBettorCount.getD 0 < 1 then false
      else true
  filtered.mergeSort fun a b =>
    resolutionSpeedScore patternTest now b ≤ resolutionSpeedScore patternTest now a

/-- `calculateEdge` from `strategy.ts`. -/
def calculateEdge (estimate marketProb : ℚ) : ℚ := |estimate - marketProb|

/-- `getDirection` from `strategy.ts`. -/
def getDirection (estimate marketProb : ℚ) : Dir :=
  if estimate > marketProb then .yes else .no

/-- `kellyFraction` from `strategy.ts`. -/
def kellyFraction (estimate marketProb : ℚ) (direction : Dir) : ℚ :=
  let clampedProb := min (99/100) (max (1/100) marketProb)
  let b := if direction = .yes then (1 - clampedProb) / clampedProb
           else clampedProb / (1 - clampedProb)
  let p := if direction = .yes then estimate else 1 - estimate
  let q := 1 - p
  max 0 ((b * p - q) / b)

/-- `sizeBet` from `strategy.ts`: fractional Kelly with position limits. -/
def sizeBet (fullKelly bankroll : ℚ) (config : Config) : ℚ :=
  let bet := fullKelly * config.kellyFraction * bankroll
  let bet := min bet (bankroll * config.maxPositionPct)
  let bet := min bet config.maxBetAmount
  max 0 ((jsRound bet : ℤ) : ℚ)

/-- Result record of `sizeBetWithSlippage`. -/
structure SlipResult where
  betAmount : ℚ
  kellyFrac : ℚ
  effectiveProb : ℚ
deriving DecidableEq

/-- The loop body of `sizeBetWithSlippage` from `strategy.ts`, with the
remaining iteration count as fuel.  State `(bet, fKelly, adjProb)` mirrors
the three mutable locals; fuel `0` is the normal loop exit. -/
def slipLoop (estimate marketProb : ℚ) (direction : Dir)
    (bankroll liquidity : ℚ) (config : Config) :
    ℕ → ℚ → ℚ → ℚ → SlipResult
  | 0, bet, fKelly, adjProb => ⟨bet, fKelly, adjProb⟩
  | fuel + 1, bet, _, _ =>
    let slippage := bet / (4 * liquidity)
    let adjProb := if direction = .yes then min (99/100) (marketProb + slippage)
                   else max (1/100) (marketProb - slippage)
    let fKelly := kellyFraction estimate adjProb direction
    if fKelly ≤ 0 then ⟨0, 0, adjProb⟩
    else
      let newBet := sizeBet fKelly bankroll config
      if |newBet - bet| < 1 then ⟨bet, fKelly, adjProb⟩
      else slipLoop estimate marketProb direction bankroll liquidity config
        fuel newBet fKelly adjProb

/-- `sizeBetWithSlippage` from `strategy.ts`: 8 rounds, starting from a
zero bet at the quoted price. -/
def sizeBetWithSlippage (estimate marketProb : ℚ) (direction : Dir)
    (bankroll liquidity : ℚ) (config : Config) : SlipResult :=
  slipLoop estimate marketProb direction bankroll liquidity config
    8 0 0 marketProb

/-- The successive stake estimates (`newBet` values) computed by the
`sizeBetWithSlippage` loop, in order.  Same control flow as `slipLoop`. -/
def slipTrace (estimate marketProb : ℚ) (direction : Dir)
    (bankroll liquidity : ℚ) (config : Config) :
    ℕ → ℚ → List ℚ
  | 0, _ => []
  | fuel + 1, bet =>
    let slippage := bet / (4 * liquidity)
    let adjProb := if direction = .yes then min (99/100) (marketProb + slippage)
                   else max (1/100) (marketProb - slippage)
    let fKelly := kellyFraction estimate adjProb direction
    if fKelly ≤ 0 then []
    else
      let newBet := sizeBet fKelly bankroll config
      if |newBet - bet| < 1 then [newBet]
      else newBet ::
        slipTrace estimate marketProb direction bankroll liquidity config
          fuel newBet

/-- The stake-estimate sequence of a full `sizeBetWithSlippage` call. -/
def slippageEstimates (estimate marketProb : ℚ) (direction : Dir)
    (bankroll liquidity : ℚ) (config : Config) : List ℚ :=
  slipTrace estimate marketProb direction bankroll liquidity config 8 0

/-- `makeDecision` from `strategy.ts`.  `isFinance`/`isSports` stand for
the regex classifiers `isFinanceMarket`/`isSportsMarket`; `traceId` and
`timestamp` stand for `randomUUID()` and `new Date().toISOString()`. -/
def makeDecision (isFinance isSports : String → Bool)
    (traceId timestamp : String) (market : ManifoldMarket)
    (estimate : ClaudeEstimate) (bankroll : ℚ) (config : Config)
    (venue : Venue) : TradeDecision :=
  let edge := calculateEdge estimate.probability market.probability
  let desc :=
    if jsTruthyStr market.textDescription then market.textDescription.getD ""
    else market.descriptionStr.getD ""
  let base : Option Dir → ℚ → ℚ → ℚ → TAction → TradeDecision :=
    fun direction kellyFraction effectiveProb betAmount action =>
      { traceId, timestamp, marketId := market.id, question := market.question,
        marketUrl := market.url, marketProb := market.probability,
        estimate := estimate.probability, confidence := estimate.confidence,
        reasoning := estimate.reasoning, edge, venue,
        liquidity := market.totalLiquidity, closeTime := market.closeTime,
        uniqueBettorCount := market.uniqueBettorCount.getD 0,
        description := desc.take 2000,
        direction, kellyFraction, effectiveProb, betAmount, action }
  if edge < config.edgeThreshold then
    base none 0 market.probability 0 .skipLowEdge
  else if estimate.confidence = "low"
      ∧ ¬ (isFinance market.question ∨ isSports market.question) then
    base none 0 market.probability 0 .skipLowConfidence
  else
    let direction := getDirection estimate.probability market.probability
    let sized : ℚ × ℚ × ℚ :=
      if venue = .polymarket then
        let kellyFrac := kellyFraction estimate.probability market.probability direction
        let betAmount := if kellyFrac > 0 then sizeBet kellyFrac bankroll config else 0
        let betAmount := min betAmount config.polyMaxBetAmount
        (betAmount, kellyFrac, market.probability)
      else
        let result := sizeBetWithSlippage estimate.probability market.probability
          direction bankroll market.totalLiquidity config
        (result.betAmount, result.kellyFrac, result.effectiveProb)
    let betAmount := sized.1
    let kellyFrac := sized.2.1
    let effectiveProb := sized.2.2
    if kellyFrac ≤ 0 then
      base (some direction) kellyFrac effectiveProb 0 .skipNegativeKelly
    else if betAmount < 1 then
      base (some direction) kellyFrac effectiveProb 0 .skipLowEdge
    else
      base (some direction) kellyFrac effectiveProb betAmount .bet

/- ------------------------------------------------------------------ -/
/- pnl.ts                                                              -/
/- ------------------------------------------------------------------ -/

/-- `computeWon` from `pnl.ts`.  The TS equality `direction === resolution`
on the `"YES"`/`"NO"` strings is the per-constructor match below. -/
def computeWon (direction : Dir) (resolution : MktRes) (actual : ℚ) : Bool :=
  match resolution with
  | .mkt => if direction = .yes then actual > 1/2 else actual < 1/2
  | .yes => direction = .yes
  | .no => direction = .no

/-- `computeRealizedPnl` from `pnl.ts`. -/
def computeRealizedPnl (direction : Dir) (amount marketProb : ℚ)
    (resolution : MktRes) (won : Bool) (shares : Option ℚ)
    (resolutionProbability : Option ℚ) : ℚ :=
  if resolution = .mkt then
    let p := resolutionProbability.getD (1/2)
    if jsTruthyNum shares then
      let s := shares.getD 0
      if direction = .yes then s * p - amount else s * (1 - p) - amount
    else
      if direction = .yes then amount * (p - marketProb) / marketProb
      else amount * (marketProb - p) / (1 - marketProb)
  else if jsTruthyNum shares then
    if won then shares.getD 0 - amount else -amount
  else if direction = .yes then
    if won then amount * (1 - marketProb) / marketProb else -amount
  else
    if won then amount * marketProb / (1 - marketProb) else -amount

/- ------------------------------------------------------------------ -/
/- resolver.ts and poly-resolver.ts                                    -/
/- ------------------------------------------------------------------ -/

/-- `TradeExecution.result` from `types.ts`. -/
structure ExecResult where
  betId : Option String := none
  error : Option String := none
deriving DecidableEq

/-- `TradeExecution` from `types.ts` (fields the reconcilers read).
`action` is `some "SELL"` on sell records appended by `seller.ts`. -/
structure TradeExecution where
  traceId : String
  marketId : String
  question : String
  direction : Dir
  amount : ℚ
  marketProb : ℚ
  estimate : ℚ
  edge : ℚ
  dryRun : Bool
  shares : Option ℚ := none
  venue : Option String := none
  action : Option String := none
  result : Option ExecResult := none
deriving DecidableEq

/-- `Resolution` from `types.ts`. -/
structure Resolution where
  traceId : String
  resolvedAt : String
  marketId : String
  question : String
  resolution : ResOutcome
  direction : Dir
  estimate : ℚ
  marketProbAtBet : ℚ
  edge : ℚ
  confidence : String
  amount : ℚ
  won : Bool
  pnl : ℚ
  brierScore : ℚ
  venue : String
deriving DecidableEq

/-- `new Map(decisions.map(d => [d.traceId, d]))` lookup: the last entry
with a given key wins. -/
def lookupDecision (decisions : List TradeDecision) (tid : String) :
    Option TradeDecision :=
  (decisions.filter fun d => d.traceId = tid).getLast?

/-- Narrowing of a non-`CANCEL` venue outcome to the `pnl.ts` outcome
space (the TS code passes the string through unchanged). -/
def toMktRes : ResOutcome → MktRes
  | .yes => .yes
  | .no => .no
  | _ => .mkt

/-- The body of the `runResolve` loop in `resolver.ts` for one trade:
the list of resolution records it appends (empty on a network error, an
unresolved market, or a missing resolution field). -/
def resolveOne (getMarket : String → Option ManifoldMarket)
    (decisions : List TradeDecision) (nowIso : String)
    (trade : TradeExecution) : List Resolution :=
  match getMarket trade.marketId with
  | none => []
  | some market =>
    if ¬ market.isResolved then []
    else match market.resolution with
      | none => []
      | some res =>
        let confidence := (lookupDecision decisions trade.traceId).elim
          "unknown" (·.confidence)
        let venue := trade.venue.getD "manifold"
        if res = .cancel then
          [{ traceId := trade.traceId, resolvedAt := nowIso,
             marketId := trade.marketId, question := trade.question,
             resolution := .cancel, direction := trade.direction,
             estimate := trade.estimate, marketProbAtBet := trade.marketProb,
             edge := trade.edge, confidence, amount := trade.amount,
             won := false, pnl := 0, brierScore := 0, venue }]
        else
          let actual : ℚ :=
            if res = .yes then 1
            else if res = .no then 0
            else market.resolutionProbability.getD (1/2)
          let won := computeWon trade.direction (toMktRes res) actual
          let pnl := computeRealizedPnl trade.direction trade.amount
            trade.marketProb (toMktRes res) won trade.shares
            market.resolutionProbability
          let brierScore := (trade.estimate - actual) ^ 2
          [{ traceId := trade.traceId, resolvedAt := nowIso,
             marketId := trade.marketId, question := trade.question,
             resolution := res, direction := trade.direction,
             estimate := trade.estimate, marketProbAtBet := trade.marketProb,
             edge := trade.edge, confidence, amount := trade.amount,
             won, pnl, brierScore, venue }]

/-- `runResolve` from `resolver.ts`: the resolution records appended to
the log in one run.  `getMarket` returning `none` models a thrown fetch
error (caught, logged, skipped). -/
def runResolve (getMarket : String → Option ManifoldMarket) (nowIso : String)
    (trades : List TradeExecution) (decisions : List TradeDecision)
    (existing : List Resolution) : List Resolution :=
  let soldTraceIds : List String :=
    (trades.filter fun t => t.action = some "SELL").map (·.traceId)
  let realTrades := trades.filter fun t =>
    !t.dryRun && jsTruthyStr (t.result.bind (·.betId))
      && !jsTruthyStr (t.result.bind (·.error))
      && !decide (t.traceId ∈ soldTraceIds)
  let resolvedIds : List String := existing.map (·.traceId)
  let unresolved := realTrades.filter fun t => !decide (t.traceId ∈ resolvedIds)
  unresolved.flatMap (resolveOne getMarket decisions nowIso)

/-- `computePolyPnl` from `poly-resolver.ts`. -/
def computePolyPnl (trade : TradeExecution) (won : Bool) : ℚ :=
  if won then trade.amount / trade.marketProb - trade.amount
  else -trade.amount

/-- The body of the `runPolyResolve` loop for one trade.  `chainStatus`
models `checkConditionResolution` keyed by condition id: `none` is a
thrown RPC error, `some none` an unresolved condition, `some (some w)` a
resolved condition with winner `w`.  The per-run condition cache is
invisible here because the lookup is a pure function. -/
def polyResolveOne (chainStatus : String → Option (Option Dir))
    (decisions : List TradeDecision) (nowIso : String)
    (trade : TradeExecution) : List Resolution :=
  match chainStatus trade.marketId with
  | none => []
  | some none => []
  | some (some winner) =>
    let won := trade.direction = winner
    let pnl := computePolyPnl trade won
    let actual : ℚ := if winner = .yes then 1 else 0
    let brierScore := (trade.estimate - actual) ^ 2
    let confidence := (lookupDecision decisions trade.traceId).elim
      "unknown" (·.confidence)
    [{ traceId := trade.traceId, resolvedAt := nowIso,
       marketId := trade.marketId, question := trade.question,
       resolution := if winner = .yes then .yes else .no,
       direction := trade.direction, estimate := trade.estimate,
       marketProbAtBet := trade.marketProb, edge := trade.edge,
       confidence, amount := trade.amount, won, pnl, brierScore,
       venue := "polymarket" }]

/-- `runPolyResolve` from `poly-resolver.ts`: the resolution records
appended to the log in one run. -/
def runPolyResolve (chainStatus : String → Option (Option Dir))
    (nowIso : String) (trades : List TradeExecution)
    (decisions : List TradeDecision) (existing : List Resolution) :
    List Resolution :=
  let resolvedIds : List String := existing.map (·.traceId)
  let unresolved := trades.filter fun t =>
    decide (t.venue = some "polymarket") && !t.dryRun
      && !jsTruthyStr (t.result.bind (·.error))
      && !decide (t.traceId ∈ resolvedIds)
  unresolved.flatMap (polyResolveOne chainStatus decisions nowIso)

/- ------------------------------------------------------------------ -/
/- analyzer.ts (computeCalibration and helpers)                        -/
/- ------------------------------------------------------------------ -/

/-- `CalibrationBucket` from `types.ts`. -/
structure CalibrationBucket where
  range : String
  count : ℕ
  avgEstimate : ℚ
  actualFrequency : ℚ
  overconfidence : ℚ
deriving DecidableEq

/-- One entry of `CalibrationReport.byConfidence`. -/
structure ConfStats where
  count : ℕ
  winRate : ℚ
  avgBrier : ℚ
  roi : ℚ
deriving DecidableEq

/-- `CalibrationReport.byConfidence` from `types.ts`. -/
structure ByConfidence where
  low : ConfStats
  medium : ConfStats
  high : ConfStats
deriving DecidableEq

/-- `CalibrationReport.recentTrend` from `types.ts`. -/
structure RecentTrend where
  winRate : ℚ
  avgBrier : ℚ
  roi : ℚ
deriving DecidableEq

/-- `CalibrationReport` from `types.ts`. -/
structure CalibrationReport where
  totalResolved : ℕ
  winRate : ℚ
  totalPnl : ℚ
  roi : ℚ
  avgBrierScore : ℚ
  buckets : List CalibrationBucket
  byConfidence : ByConfidence
  recentTrend : RecentTrend
deriving DecidableEq

/-- The probability of the side actually bet (`r.direction === "YES" ?
r.estimate : 1 - r.estimate` in `computeBuckets`). -/
def betSideProb (r : Resolution) : ℚ :=
  if r.direction = .yes then r.estimate else 1 - r.estimate

/-- `computeBuckets` from `analyzer.ts`: ten-point buckets over the
bet-side probability, empty buckets skipped. -/
def computeBuckets (resolutions : List Resolution) : List CalibrationBucket :=
  (List.range 10).filterMap fun i =>
    let low : ℕ := 10 * i
    let high : ℕ := low + 10
    let range := toString low ++ "-" ++ toString high ++ "%"
    let inBucket := resolutions.filter fun r =>
      decide ((low : ℚ) ≤ betSideProb r * 100 ∧ betSideProb r * 100 < (high : ℚ))
    if inBucket.length = 0 then none
    else
      let avgEstimate := (inBucket.map betSideProb).sum / (inBucket.length : ℚ)
      let actualFrequency :=
        ((inBucket.filter (·.won)).length : ℚ) / (inBucket.length : ℚ)
      some { range, count := inBucket.length, avgEstimate, actualFrequency,
             overconfidence := avgEstimate - actualFrequency }

/-- The per-group statistics of `computeByConfidence` (the loop body for
one confidence level's group). -/
def confStatsOf (group : List Resolution) : ConfStats :=
  let count := group.length
  let wins := (group.filter (·.won)).length
  let winRate := if count > 0 then (wins : ℚ) / (count : ℚ) else 0
  let avgBrier :=
    if count > 0 then (group.map (·.brierScore)).sum / (count : ℚ) else 0
  let wagered := (group.map (·.amount)).sum
  let pnl := (group.map (·.pnl)).sum
  let roi := if wagered > 0 then pnl / wagered else 0
  { count, winRate, avgBrier, roi }

/-- `computeByConfidence` from `analyzer.ts`. -/
def computeByConfidence (resolutions : List Resolution) : ByConfidence :=
  { low := confStatsOf (resolutions.filter fun r => r.confidence = "low"),
    medium := confStatsOf (resolutions.filter fun r => r.confidence = "medium"),
    high := confStatsOf (resolutions.filter fun r => r.confidence = "high") }

/-- `computeRecentTrend` from `analyzer.ts` (`slice(-20)` keeps the last
at most 20 records). -/
def computeRecentTrend (resolutions : List Resolution) : RecentTrend :=
  let recent := resolutions.drop (resolutions.length - 20)
  let count := recent.length
  if count = 0 then { winRate := 0, avgBrier := 0, roi := 0 }
  else
    let wins := (recent.filter (·.won)).length
    let winRate := (wins : ℚ) / (count : ℚ)
    let avgBrier := (recent.map (·.brierScore)).sum / (count : ℚ)
    let wagered := (recent.map (·.amount)).sum
    let pnl := (recent.map (·.pnl)).sum
    let roi := if wagered > 0 then pnl / wagered else 0
    { winRate, avgBrier, roi }

/-- `computeCalibration` from `analyzer.ts`. -/
def computeCalibration (resolutions : List Resolution) : CalibrationReport :=
  let valid := resolutions.filter fun r => r.resolution ≠ .cancel
  let totalResolved := valid.length
  let wins := (valid.filter (·.won)).length
  let winRate := if totalResolved > 0 then (wins : ℚ) / (totalResolved : ℚ) else 0
  let totalPnl := (valid.map (·.pnl)).sum
  let totalWagered := (valid.map (·.amount)).sum
  let roi := if totalWagered > 0 then totalPnl / totalWagered else 0
  let avgBrierScore :=
    if totalResolved > 0 then (valid.map (·.brierScore)).sum / (totalResolved : ℚ)
    else 0
  { totalResolved, winRate, totalPnl, roi, avgBrierScore,
    buckets := computeBuckets valid,
    byConfidence := computeByConfidence valid,
    recentTrend := computeRecentTrend valid }

/- ------------------------------------------------------------------ -/
/- feedback.ts                                                         -/
/- ------------------------------------------------------------------ -/

/-- JS `Number.prototype.toFixed`: decimal rendering with `f` digits,
rounding to nearest with ties toward positive infinity. -/
def toFixed (f : ℕ) (x : ℚ) : String :=
  let n : ℤ := Rat.floor (x * (10 : ℚ) ^ f + 1/2)
  let sign := if n < 0 then "-" else ""
  let a := n.natAbs
  let ip := a / 10 ^ f
  let fp := a % 10 ^ f
  if f = 0 then sign ++ toString ip
  else
    let fpStr := toString fp
    let pad := String.mk (List.replicate (f - fpStr.length) '0')
    sign ++ toString ip ++ "." ++ pad ++ fpStr

/-- `pct` from `feedback.ts`. -/
def pct (n : ℚ) : String := toFixed 1 (n * 100) ++ "%"

/-- The per-bucket line of the miscalibrated-bucket loop in
`formatFeedback`. -/
def miscalibratedLine (b : CalibrationBucket) : String :=
  let dir := if b.overconfidence > 0 then "OVERCONFIDENT" else "UNDERCONFIDENT"
  let adj := if b.overconfidence > 0 then "Adjust down" else "Adjust up"
  let pts := toFixed 0 |b.overconfidence * 100|
  "- " ++ b.range ++ " bucket: actual frequency " ++ pct b.actualFrequency
    ++ ". You are ~" ++ pts ++ "pts " ++ dir ++ ". " ++ adj ++ "."

/-- The per-level line of the confidence-label loop in `formatFeedback`
(`none` when the level has fewer than 3 samples and is skipped). -/
def confidenceLine (level : String) (c : ConfStats) : Option String :=
  if c.count < 3 then none
  else
    let quality :=
      if c.winRate ≥ 65/100 then "Good signal — trust these."
      else if c.winRate < 1/2 then "Consider abstaining."
      else "Moderate signal."
    some ("- \"" ++ level ++ "\" → " ++ pct c.winRate ++ " win, "
      ++ toFixed 2 c.avgBrier ++ " Brier. " ++ quality)

/-- `formatFeedback` from `feedback.ts` (`MIN_RESOLUTIONS = 10`,
`MIN_BUCKET_COUNT = 3`); `none` is the TS `null` return. -/
def formatFeedback (report : CalibrationReport) : Option String :=
  if report.totalResolved < 10 then none
  else
    let roiSign := if report.roi ≥ 0 then "+" else ""
    let header : List String :=
      ["## Your Past Performance (" ++ toString report.totalResolved
          ++ " resolved forecasts)",
        "- Win rate: " ++ pct report.winRate ++ " | Brier: "
          ++ toFixed 2 report.avgBrierScore ++ " | ROI: " ++ roiSign
          ++ pct report.roi]
    let miscalibrated := report.buckets.filter fun b =>
      decide (3 ≤ b.count) && decide (|b.overconfidence| ≥ 1/20)
    let issueLines : List String :=
      if miscalibrated.length > 0 then
        ["", "### Calibration Issues"] ++ miscalibrated.map miscalibratedLine
      else []
    let wellCalibrated := report.buckets.filter fun b =>
      decide (3 ≤ b.count) && decide (|b.overconfidence| < 1/20)
    let wellLines : List String :=
      wellCalibrated.map fun b => "- " ++ b.range ++ " bucket: Well calibrated."
    let conf := report.byConfidence
    let hasConfData :=
      conf.low.count > 0 ∨ conf.medium.count > 0 ∨ conf.high.count > 0
    let confLines : List String :=
      if hasConfData then
        ["", "### Confidence Labels"]
          ++ ([("high", conf.high), ("medium", conf.medium), ("low", conf.low)]
              |>.filterMap fun lc => confidenceLine lc.1 lc.2)
      else []
    let trendLines : List String :=
      if report.totalResolved ≥ 20 then
        let t := report.recentTrend
        let trending :=
          if t.winRate < report.winRate - 1/20 then "(declining). Be more selective."
          else if t.winRate > report.winRate + 1/20 then "(improving). Keep it up."
          else "(stable)."
        ["", "### Recent Trend (last 20): Win rate " ++ pct t.winRate ++ " "
          ++ trending]
      else []
    some (String.intercalate "\n"
      (header ++ issueLines ++ wellLines ++ confLines ++ trendLines))

/- ------------------------------------------------------------------ -/
/- Concrete fixtures used by counterexamples and witnesses            -/
/- ------------------------------------------------------------------ -/

/-- A configuration with the documented defaults (`EDGE_THRESHOLD 0.1`,
`KELLY_FRACTION 0.25`, `MAX_POSITION_PCT 0.2`, `MAX_BET_AMOUNT 50`,
`MIN_LIQUIDITY 100`, 2% max price impact). -/
def cfgDefault : Config :=
  { edgeThreshold := 1/10, kellyFraction := 1/4, maxPositionPct := 1/5,
    maxBetAmount := 50, minLiquidity := 100, maxImpactPct := 1/50,
    polyMaxBetAmount := 100 }

/-- An aggressive configuration (full Kelly, no position caps) that makes
the slippage iteration take visibly many rounds. -/
def cfgWide : Config :=
  { edgeThreshold := 1/10, kellyFraction := 1, maxPositionPct := 1,
    maxBetAmount := 1000000, minLiquidity := 100, maxImpactPct := 1/50,
    polyMaxBetAmount := 1000000 }

/-- An eligible market whose time-to-close (taking `now = 0`) is exactly
the one-hour lower bound. -/
def mktBoundary : ManifoldMarket :=
  { id := "m-boundary", question := "Will the example resolve?",
    url := "https://manifold.markets/m-boundary", probability := 1/2,
    totalLiquidity := 500, volume := 0, closeTime := 3600000,
    createdTime := 0, outcomeType := "BINARY", mechanism := "cpmm-1",
    isResolved := false, uniqueBettorCount := some 3 }

/-- A calibration report with exactly 10 resolved forecasts. -/
def reportTen : CalibrationReport :=
  { totalResolved := 10, winRate := 1/2, totalPnl := 0, roi := 0,
    avgBrierScore := 1/4, buckets := [],
    byConfidence := ⟨⟨0, 0, 0, 0⟩, ⟨0, 0, 0, 0⟩, ⟨0, 0, 0, 0⟩⟩,
    recentTrend := ⟨0, 0, 0⟩ }

/-- A `CANCEL` resolution record (as written by the `CANCEL` branch of
`runResolve`). -/
def cancelRecord : Resolution :=
  { traceId := "t-cancel", resolvedAt := "2026-01-01T00:00:00.000Z",
    marketId := "m-cancel", question := "Cancelled market?",
    resolution := .cancel, direction := .yes, estimate := 3/5,
    marketProbAtBet := 2/5, edge := 1/5, confidence := "medium",
    amount := 10, won := false, pnl := 0, brierScore := 0,
    venue := "manifold" }

/-- A second `CANCEL` resolution record, with nonzero stake, used to
exercise the aggregate exclusions. -/
def cancelRecordB : Resolution :=
  { traceId := "t-cancel-b", resolvedAt := "2026-01-02T00:00:00.000Z",
    marketId := "m-cancel-b", question := "Another cancelled market?",
    resolution := .cancel, direction := .no, estimate := 1/5,
    marketProbAtBet := 1/2, edge := 3/10, confidence := "low",
    amount := 25, won := false, pnl := 0, brierScore := 0,
    venue := "manifold" }

/-- A concrete real (non-dry-run, non-errored, unsold) execution. -/
def tradeSample : TradeExecution :=
  { traceId := "t-1", marketId := "m-1", question := "Will it happen?",
    direction := .yes, amount := 10, marketProb := 2/5, estimate := 3/5,
    edge := 1/5, dryRun := false, shares := some 25,
    venue := some "manifold", action := none,
    result := some { betId := some "b-1", error := none } }

/-- A concrete Polymarket execution awaiting on-chain resolution. -/
def tradePolySample : TradeExecution :=
  { traceId := "t-2", marketId := "c-1", question := "Poly question?",
    direction := .yes, amount := 10, marketProb := 2/5, estimate := 3/5,
    edge := 1/5, dryRun := false, shares := none,
    venue := some "polymarket", action := none, result := none }

/-- The market of `tradeSample`, resolved `YES`. -/
def marketResolvedYes : ManifoldMarket :=
  { id := "m-1", question := "Will it happen?",
    url := "https://manifold.markets/m-1", probability := 1,
    totalLiquidity := 500, volume := 100, closeTime := 3600000,
    createdTime := 0, outcomeType := "BINARY", mechanism := "cpmm-1",
    isResolved := true, resolution := some .yes }

/-- The market of `tradeSample`, resolved `CANCEL`. -/
def marketResolvedCancel : ManifoldMarket :=
  { id := "m-1", question := "Will it happen?",
    url := "https://manifold.markets/m-1", probability := 2/5,
    totalLiquidity := 500, volume := 100, closeTime := 3600000,
    createdTime := 0, outcomeType := "BINARY", mechanism := "cpmm-1",
    isResolved := true, resolution := some .cancel }

/-- The resolution record `runResolve` writes for `tradeSample` against
`marketResolvedYes` (shares 25, stake 10 → P&L 15; Brier (0.6 − 1)²). -/
def resolutionYesSample : Resolution :=
  { traceId := "t-1", resolvedAt := "2026-02-01T00:00:00.000Z",
    marketId := "m-1", question := "Will it happen?", resolution := .yes,
    direction := .yes, estimate := 3/5, marketProbAtBet := 2/5,
    edge := 1/5, confidence := "unknown", amount := 10, won := true,
    pnl := 15, brierScore := 4/25, venue := "manifold" }

/-- The resolution record `runResolve` writes for `tradeSample` against
`marketResolvedCancel`. -/
def resolutionCancelSample : Resolution :=
  { traceId := "t-1", resolvedAt := "2026-02-01T00:00:00.000Z",
    marketId := "m-1", question := "Will it happen?",
    resolution := .cancel, direction := .yes, estimate := 3/5,
    marketProbAtBet := 2/5, edge := 1/5, confidence := "unknown",
    amount := 10, won := false, pnl := 0, brierScore := 0,
    venue := "manifold" }

/-- The resolution record `runPolyResolve` writes for `tradePolySample`
when the chain reports a `YES` payout (10 USDC at 0.40 → 25 shares →
P&L 15). -/
def resolutionPolySample : Resolution :=
  { traceId := "t-2", resolvedAt := "2026-02-01T00:00:00.000Z",
    marketId := "c-1", question := "Poly question?", resolution := .yes,
    direction := .yes, estimate := 3/5, marketProbAtBet := 2/5,
    edge := 1/5, confidence := "unknown", amount := 10, won := true,
    pnl := 15, brierScore := 4/25, venue := "polymarket" }

/-- A concrete decision: estimate 0.6 with medium confidence on the
boundary market, bankroll 1000, default configuration, AMM venue. -/
def decisionSample : TradeDecision :=
  makeDecision (fun _ => false) (fun _ => false) "t1"
    "2026-01-01T00:00:00.000Z" mktBoundary ⟨3/5, "medium", "because"⟩
    1000 cfgDefault .manifold

/- ------------------------------------------------------------------ -/
/- Helper lemmas                                                       -/
/- ------------------------------------------------------------------ -/

theorem jsRound_eq_floor (x : ℚ) : jsRound x = ⌊x + 1/2⌋ := by
  rw [jsRound, Rat.floor_def', Rat.floor_def]

theorem jsRound_mono {x y : ℚ} (h : x ≤ y) : jsRound x ≤ jsRound y := by
  rw [jsRound_eq_floor, jsRound_eq_floor]
  exact Int.floor_le_floor (by linarith)

/-- Closed form of the `YES` Kelly fraction: with the clamped market
probability `c`, the raw fraction is `(e - c) / (1 - c)`. -/
theorem kellyFraction_yes_closed (e m : ℚ) :
    kellyFraction e m .yes
      = max 0 ((e - min (99/100) (max (1/100) m))
          / (1 - min (99/100) (max (1/100) m))) := by
  have hc0 : (0 : ℚ) < min (99/100) (max (1/100) m) :=
    lt_min (by norm_num) (lt_of_lt_of_le (by norm_num) (le_max_left _ _))
  have hc1 : min (99/100) (max (1/100) m) < 1 :=
    lt_of_le_of_lt (min_le_left _ _) (by norm_num)
  have h1 : min (99/100) (max (1/100) m) ≠ 0 := ne_of_gt hc0
  have h2 : (1 : ℚ) - min (99/100) (max (1/100) m) ≠ 0 :=
    sub_ne_zero.mpr (ne_of_gt hc1)
  simp only [kellyFraction, reduceCtorEq, if_pos rfl, reduceIte]
  congr 1
  field_simp
  ring

/- ------------------------------------------------------------------ -/
/- C5                                                                  -/
/- ------------------------------------------------------------------ -/

/-- C5 counterexample: for `m = 1/1000 ∈ (0,1)` the clamping of the
market probability to `[0.01, 0.99]` makes the `YES` Kelly fraction
vanish on `0.001 < 0.002 < 0.003`, so it is not strictly increasing in
the estimate. -/
theorem kellyFraction_yes_not_strictMono :
    (0 : ℚ) < 1/1000 ∧ (1/1000 : ℚ) < 1
    ∧ (1/1000 : ℚ) < 2/1000 ∧ (2/1000 : ℚ) < 3/1000
    ∧ kellyFraction (2/1000) (1/1000) .yes = 0
    ∧ kellyFraction (3/1000) (1/1000) .yes = 0
    ∧ ¬ kellyFraction (2/1000) (1/1000) .yes
        < kellyFraction (3/1000) (1/1000) .yes := by
  norm_num [kellyFraction]

/-- C5 (amended): the `YES` Kelly fraction is non-negative for all
inputs, and for every market probability `m` with `1/100 ≤ m < 1` (i.e.
not below the lower clamp) it is strictly increasing in the estimate on
estimates above `m`. -/
theorem kellyFraction_yes_nonneg_strictMono :
    (∀ e m : ℚ, 0 ≤ kellyFraction e m .yes)
    ∧ ∀ m e₁ e₂ : ℚ, 1/100 ≤ m → m < 1 → m < e₁ → e₁ < e₂ →
        kellyFraction e₁ m .yes < kellyFraction e₂ m .yes := by
  refine ⟨fun e m => le_max_left _ _, fun m e₁ e₂ hm hm1 h1 h12 => ?_⟩
  rw [kellyFraction_yes_closed, kellyFraction_yes_closed]
  have hmax : max (1/100 : ℚ) m = m := max_eq_right hm
  have hcm : min (99/100 : ℚ) (max (1/100) m) ≤ m := by
    rw [hmax]; exact min_le_right _ _
  have hc1 : min (99/100 : ℚ) (max (1/100) m) < 1 :=
    lt_of_le_of_lt (min_le_left _ _) (by norm_num)
  have h1c : (0 : ℚ) < 1 - min (99/100) (max (1/100) m) := by linarith
  have hr1 : 0 < (e₁ - min (99/100 : ℚ) (max (1/100) m))
      / (1 - min (99/100) (max (1/100) m)) :=
    div_pos (by linarith) h1c
  have hr2 : (e₁ - min (99/100 : ℚ) (max (1/100) m))
        / (1 - min (99/100) (max (1/100) m))
      < (e₂ - min (99/100 : ℚ) (max (1/100) m))
        / (1 - min (99/100) (max (1/100) m)) := by
    rw [div_lt_div_iff₀ h1c h1c]
    nlinarith
  rw [max_eq_right hr1.le, max_eq_right (le_of_lt (lt_trans hr1 hr2))]
  exact hr2

/-- C5 witness: the amended theorem at `m = 1/2`, `e₁ = 3/5`, `e₂ = 7/10`. -/
theorem kellyFraction_yes_nonneg_strictMono_witness :
    kellyFraction (3/5) (1/2) .yes < kellyFraction (7/10) (1/2) .yes :=
  kellyFraction_yes_nonneg_strictMono.2 (1/2) (3/5) (7/10)
    (by norm_num) (by norm_num) (by norm_num) (by norm_num)

/- ------------------------------------------------------------------ -/
/- C2                                                                  -/
/- ------------------------------------------------------------------ -/

theorem sizeBet_nonneg (f br : ℚ) (cfg : Config) : 0 ≤ sizeBet f br cfg :=
  le_max_left _ _

theorem sizeBet_le_round_maxBet (f br : ℚ) (cfg : Config) :
    sizeBet f br cfg ≤ max 0 ((jsRound cfg.maxBetAmount : ℤ) : ℚ) := by
  unfold sizeBet
  exact max_le_max le_rfl
    (by exact_mod_cast jsRound_mono (min_le_right _ _))

theorem sizeBet_le_round_posPct (f br : ℚ) (cfg : Config) :
    sizeBet f br cfg ≤ max 0 ((jsRound (br * cfg.maxPositionPct) : ℤ) : ℚ) := by
  unfold sizeBet
  exact max_le_max le_rfl
    (by exact_mod_cast
      jsRound_mono (le_trans (min_le_left _ _) (min_le_right _ _)))

theorem sizeBet_den_one (f br : ℚ) (cfg : Config) :
    (sizeBet f br cfg).den = 1 := by
  unfold sizeBet
  rcases le_total ((jsRound (min (min (f * cfg.kellyFraction * br)
      (br * cfg.maxPositionPct)) cfg.maxBetAmount) : ℤ) : ℚ) 0 with h | h
  · rw [max_eq_left h]; rfl
  · rw [max_eq_right h]; exact Rat.den_intCast _

/-- Invariant of the `sizeBetWithSlippage` loop: the running bet stays
non-negative, integral, and below both the rounded absolute cap and the
rounded bankroll-percentage cap. -/
theorem slipLoop_betAmount_bounds (est m : ℚ) (dir : Dir) (br L : ℚ)
    (cfg : Config) :
    ∀ (fuel : ℕ) (bet fK adj : ℚ),
      0 ≤ bet → bet ≤ max 0 ((jsRound cfg.maxBetAmount : ℤ) : ℚ) →
      bet ≤ max 0 ((jsRound (br * cfg.maxPositionPct) : ℤ) : ℚ) →
      bet.den = 1 →
      0 ≤ (slipLoop est m dir br L cfg fuel bet fK adj).betAmount
      ∧ (slipLoop est m dir br L cfg fuel bet fK adj).betAmount
          ≤ max 0 ((jsRound cfg.maxBetAmount : ℤ) : ℚ)
      ∧ (slipLoop est m dir br L cfg fuel bet fK adj).betAmount
          ≤ max 0 ((jsRound (br * cfg.maxPositionPct) : ℤ) : ℚ)
      ∧ ((slipLoop est m dir br L cfg fuel bet fK adj).betAmount).den = 1 := by
  intro fuel
  induction fuel with
  | zero => intro bet fK adj h0 h1 h2 h3; exact ⟨h0, h1, h2, h3⟩
  | succ n ih =>
    intro bet fK adj h0 h1 h2 h3
    simp only [slipLoop]
    split_ifs <;>
      first
      | exact ⟨le_refl 0, le_max_left _ _, le_max_left _ _, rfl⟩
      | exact ⟨h0, h1, h2, h3⟩
      | exact ih _ _ _ (sizeBet_nonneg _ _ _) (sizeBet_le_round_maxBet _ _ _)
          (sizeBet_le_round_posPct _ _ _) (sizeBet_den_one _ _ _)

/-- C2 (amended): stake sizing multiplies the full Kelly fraction by the
configured fractional-Kelly multiplier, caps at the max-percent-of-bankroll
and at the absolute max-stake, rounds to the smallest unit and floors at 0
— so every returned stake (plain or slippage-iterated) is a non-negative
integer amount bounded by the rounded absolute cap and the rounded
bankroll-percentage cap.  No max-price-impact cap is applied: pooled
venues handle impact only through the price shift inside the iteration,
and the stake can exceed `maxImpactPct · 2 · liquidity`. -/
theorem sizing_caps (f est m : ℚ) (dir : Dir) (br L : ℚ) (cfg : Config)
    (hL : 0 < L) :
    (0 ≤ sizeBet f br cfg
      ∧ sizeBet f br cfg ≤ max 0 ((jsRound cfg.maxBetAmount : ℤ) : ℚ)
      ∧ sizeBet f br cfg ≤ max 0 ((jsRound (br * cfg.maxPositionPct) : ℤ) : ℚ)
      ∧ (sizeBet f br cfg).den = 1)
    ∧ (0 ≤ (sizeBetWithSlippage est m dir br L cfg).betAmount
      ∧ (sizeBetWithSlippage est m dir br L cfg).betAmount
          ≤ max 0 ((jsRound cfg.maxBetAmount : ℤ) : ℚ)
      ∧ (sizeBetWithSlippage est m dir br L cfg).betAmount
          ≤ max 0 ((jsRound (br * cfg.maxPositionPct) : ℤ) : ℚ)
      ∧ ((sizeBetWithSlippage est m dir br L cfg).betAmount).den = 1) :=
  ⟨⟨sizeBet_nonneg f br cfg, sizeBet_le_round_maxBet f br cfg,
    sizeBet_le_round_posPct f br cfg, sizeBet_den_one f br cfg⟩,
    slipLoop_betAmount_bounds est m dir br L cfg 8 0 0 m (le_refl 0)
      (le_max_left _ _) (le_max_left _ _) rfl⟩

/-- C2 witness: the amended caps at the default configuration, a market
at 50%, estimate 80%, bankroll 1000 and liquidity 150. -/
theorem sizing_caps_witness :
    (0 : ℚ) < 150
    ∧ (0 ≤ sizeBet (3/5) 1000 cfgDefault
      ∧ sizeBet (3/5) 1000 cfgDefault
          ≤ max 0 ((jsRound cfgDefault.maxBetAmount : ℤ) : ℚ)
      ∧ sizeBet (3/5) 1000 cfgDefault
          ≤ max 0 ((jsRound (1000 * cfgDefault.maxPositionPct) : ℤ) : ℚ)
      ∧ (sizeBet (3/5) 1000 cfgDefault).den = 1)
    ∧ (0 ≤ (sizeBetWithSlippage (4/5) (1/2) .yes 1000 150 cfgDefault).betAmount
      ∧ (sizeBetWithSlippage (4/5) (1/2) .yes 1000 150 cfgDefault).betAmount
          ≤ max 0 ((jsRound cfgDefault.maxBetAmount : ℤ) : ℚ)
      ∧ (sizeBetWithSlippage (4/5) (1/2) .yes 1000 150 cfgDefault).betAmount
          ≤ max 0 ((jsRound (1000 * cfgDefault.maxPositionPct) : ℤ) : ℚ)
      ∧ ((sizeBetWithSlippage (4/5) (1/2) .yes 1000 150 cfgDefault).betAmount).den
          = 1) :=
  ⟨by norm_num, sizing_caps (3/5) (4/5) (1/2) .yes 1000 150 cfgDefault
    (by norm_num)⟩

/-- C2 counterexample: at the default configuration (2% max impact) with
liquidity 150, the impact-implied cap would be `6`, but the
slippage-iterated sizing returns a stake of `50` — the code never applies
an `impactCap · 2 · liquidity` cap. -/
theorem sizing_no_impact_cap :
    (sizeBetWithSlippage (4/5) (1/2) .yes 1000 150 cfgDefault).betAmount = 50
    ∧ cfgDefault.maxImpactPct * (2 * 150) = 6
    ∧ ¬ (sizeBetWithSlippage (4/5) (1/2) .yes 1000 150 cfgDefault).betAmount
        ≤ cfgDefault.maxImpactPct * (2 * 150) := by
  refine ⟨?_, by norm_num [cfgDefault], ?_⟩ <;>
    norm_num [sizeBetWithSlippage, slipLoop, sizeBet, kellyFraction,
      jsRound, Rat.floor, cfgDefault]

/- ------------------------------------------------------------------ -/
/- C4                                                                  -/
/- ------------------------------------------------------------------ -/

theorem slipTrace_length_le (est m : ℚ) (dir : Dir) (br L : ℚ)
    (cfg : Config) :
    ∀ (fuel : ℕ) (bet : ℚ),
      (slipTrace est m dir br L cfg fuel bet).length ≤ fuel := by
  intro fuel
  induction fuel with
  | zero => intro bet; simp [slipTrace]
  | succ n ih =>
    intro bet
    simp only [slipTrace]
    split_ifs <;> simp <;> exact ih _

/-- Every pair of consecutive stake estimates except possibly the last
one differs by at least one unit: a closer pair stops the iteration. -/
theorem slipTrace_chain_ge_one (est m : ℚ) (dir : Dir) (br L : ℚ)
    (cfg : Config) :
    ∀ (fuel : ℕ) (bet : ℚ),
      List.Chain' (fun a b : ℚ => 1 ≤ |b - a|)
        ((bet :: slipTrace est m dir br L cfg fuel bet).dropLast) := by
  intro fuel
  induction fuel with
  | zero => intro bet; simp [slipTrace]
  | succ n ih =>
    intro bet
    have step : ∀ nb : ℚ, ¬|nb - bet| < 1 →
        List.Chain' (fun a b : ℚ => 1 ≤ |b - a|)
          ((bet :: nb :: slipTrace est m dir br L cfg n nb).dropLast) := by
      intro nb hnb
      rcases htr : slipTrace est m dir br L cfg n nb with _ | ⟨x, xs⟩
      · simp
      · have hIH := ih nb
        rw [htr] at hIH
        rw [List.dropLast_cons₂] at hIH
        rw [List.dropLast_cons₂, List.dropLast_cons₂]
        exact List.chain'_cons.mpr ⟨not_lt.mp hnb, hIH⟩
    simp only [slipTrace]
    split_ifs with h1 h2 h3 h4 h5
    · simp
    · simp
    · exact step _ h3
    · simp
    · simp
    · exact step _ h5

/-- C4 (amended): the slippage iteration terminates within 8 rounds and
stops early as soon as two successive stake estimates differ by less
than one unit; whenever the Kelly fraction computed in a round is ≤ 0 it
returns a zero stake immediately.  The stake estimates are not
monotonically non-increasing in general (see the counterexample). -/
theorem slippage_iteration_bounds (est m : ℚ) (dir : Dir) (br L : ℚ)
    (cfg : Config) (hL : 0 < L) :
    (slippageEstimates est m dir br L cfg).length ≤ 8
    ∧ List.Chain' (fun a b : ℚ => 1 ≤ |b - a|)
        ((0 :: slippageEstimates est m dir br L cfg).dropLast)
    ∧ ∀ (fuel : ℕ) (bet fK adj : ℚ),
        kellyFraction est
            (if dir = .yes then min (99/100) (m + bet / (4 * L))
             else max (1/100) (m - bet / (4 * L))) dir ≤ 0 →
        slipLoop est m dir br L cfg (fuel + 1) bet fK adj
          = ⟨0, 0, if dir = .yes then min (99/100) (m + bet / (4 * L))
              else max (1/100) (m - bet / (4 * L))⟩ := by
  refine ⟨slipTrace_length_le est m dir br L cfg 8 0,
    slipTrace_chain_ge_one est m dir br L cfg 8 0,
    fun fuel bet fK adj hk => ?_⟩
  cases dir <;>
    · simp only [slipLoop, reduceIte] at hk ⊢
      rw [if_pos hk]

/-- C4 witness: the amended bounds at concrete inputs — the oscillating
run for the length and early-stop clauses, and an estimate below the
market price (Kelly ≤ 0 in round one) for the immediate-zero clause. -/
theorem slippage_iteration_bounds_witness :
    (0 : ℚ) < 1000
    ∧ (slippageEstimates (4/5) (1/2) .yes 1000 1000 cfgWide).length ≤ 8
    ∧ List.Chain' (fun a b : ℚ => 1 ≤ |b - a|)
        ((0 :: slippageEstimates (4/5) (1/2) .yes 1000 1000 cfgWide).dropLast)
    ∧ kellyFraction (3/10)
        (if Dir.yes = .yes then min (99/100) ((1/2) + 0 / (4 * 1000))
         else max (1/100) ((1/2) - 0 / (4 * 1000))) .yes ≤ 0
    ∧ slipLoop (3/10) (1/2) .yes 1000 1000 cfgWide (0 + 1) 0 0 (1/2)
        = ⟨0, 0, if Dir.yes = .yes then min (99/100) ((1/2) + 0 / (4 * 1000))
            else max (1/100) ((1/2) - 0 / (4 * 1000))⟩ :=
  ⟨by norm_num,
    (slippage_iteration_bounds (4/5) (1/2) .yes 1000 1000 cfgWide
      (by norm_num)).1,
    (slippage_iteration_bounds (4/5) (1/2) .yes 1000 1000 cfgWide
      (by norm_num)).2.1,
    by norm_num [kellyFraction],
    (slippage_iteration_bounds (3/10) (1/2) .yes 1000 1000 cfgWide
      (by norm_num)).2.2 0 0 0 (1/2) (by norm_num [kellyFraction])⟩

/-- C4 counterexample: at estimate 0.8, market 0.5, bankroll 1000,
liquidity 1000 and full-Kelly configuration the successive stake
estimates oscillate — `600, 429, 491, 470, 477, 475, 475` — so the
sequence is not monotonically non-increasing. -/
theorem slippage_not_monotone :
    slippageEstimates (4/5) (1/2) .yes 1000 1000 cfgWide
        = [600, 429, 491, 470, 477, 475, 475]
    ∧ ¬ List.Chain' (fun a b : ℚ => b ≤ a)
        (slippageEstimates (4/5) (1/2) .yes 1000 1000 cfgWide) := by
  have h : slippageEstimates (4/5) (1/2) .yes 1000 1000 cfgWide
      = [600, 429, 491, 470, 477, 475, 475] := by
    norm_num [slippageEstimates, slipTrace, kellyFraction, sizeBet,
      jsRound, Rat.floor, cfgWide]
  refine ⟨h, ?_⟩
  rw [h]
  intro hC
  rw [List.chain'_cons, List.chain'_cons] at hC
  have h2 := hC.2.1
  norm_num at h2

/- ------------------------------------------------------------------ -/
/- C3                                                                  -/
/- ------------------------------------------------------------------ -/

theorem mem_filterMarkets (patternTest : String → Bool) (now : ℤ)
    (markets : List ManifoldMarket) (config : Config) (m : ManifoldMarket) :
    m ∈ filterMarkets patternTest now markets config
      ↔ m ∈ markets ∧ m.outcomeType = "BINARY" ∧ m.isResolved = false
        ∧ config.minLiquidity ≤ m.totalLiquidity
        ∧ oneHourMs ≤ m.closeTime - now
        ∧ m.closeTime - now ≤ ninetyDaysMs
        ∧ 1 ≤ m.uniqueBettorCount.getD 0 := by
  simp only [filterMarkets, List.mem_mergeSort, List.mem_filter]
  refine and_congr_right fun _ => ?_
  split_ifs with h1 h2 h3 h4 h5 h6 <;> simp_all [not_lt, le_of_not_lt] <;>
    omega

/-- C3 (amended): `filterMarkets` returns exactly the markets that are
binary, unresolved, at or above the liquidity threshold, have at least
one bettor, and whose time-to-close lies in the *inclusive* window
`[1 hour, 90 days]` — both boundary values are included. -/
theorem filterMarkets_mem_iff (patternTest : String → Bool) (now : ℤ)
    (markets : List ManifoldMarket) (config : Config) (m : ManifoldMarket) :
    m ∈ filterMarkets patternTest now markets config
      ↔ m ∈ markets ∧ m.outcomeType = "BINARY" ∧ m.isResolved = false
        ∧ config.minLiquidity ≤ m.totalLiquidity
        ∧ oneHourMs ≤ m.closeTime - now
        ∧ m.closeTime - now ≤ ninetyDaysMs
        ∧ 1 ≤ m.uniqueBettorCount.getD 0 :=
  mem_filterMarkets patternTest now markets config m

/-- C3 counterexample: a market whose time-to-close equals the one-hour
lower bound exactly is returned by `filterMarkets`, so the window is not
strict at the boundary. -/
theorem filterMarkets_boundary_included :
    mktBoundary.closeTime - 0 = oneHourMs
    ∧ mktBoundary ∈ filterMarkets (fun _ => false) 0 [mktBoundary] cfgDefault := by
  constructor
  · norm_num [mktBoundary, oneHourMs]
  · rw [mem_filterMarkets]
    refine ⟨List.mem_singleton_self _, rfl, rfl, ?_, ?_, ?_, ?_⟩ <;>
      norm_num [mktBoundary, cfgDefault, oneHourMs, ninetyDaysMs]

/- ------------------------------------------------------------------ -/
/- C1                                                                  -/
/- ------------------------------------------------------------------ -/

/-- C1: a decision's `action` is `BET` exactly when its direction is
non-null, its Kelly fraction is positive, and its stake is at least one
unit; and in every outcome — skips included — the trace identifier,
market data, estimate and edge fields are populated from the inputs. -/
theorem makeDecision_bet_iff (isFinance isSports : String → Bool)
    (traceId timestamp : String) (market : ManifoldMarket)
    (estimate : ClaudeEstimate) (bankroll : ℚ) (config : Config)
    (venue : Venue) (hL : 0 < market.totalLiquidity) :
    let d := makeDecision isFinance isSports traceId timestamp market
      estimate bankroll config venue
    (d.action = .bet
      ↔ d.direction ≠ none ∧ 0 < d.kellyFraction ∧ 1 ≤ d.betAmount)
    ∧ d.traceId = traceId
    ∧ d.marketId = market.id
    ∧ d.question = market.question
    ∧ d.marketProb = market.probability
    ∧ d.estimate = estimate.probability
    ∧ d.confidence = estimate.confidence
    ∧ d.edge = calculateEdge estimate.probability market.probability
    ∧ d.liquidity = market.totalLiquidity := by
  intro d
  have hd : d = makeDecision isFinance isSports traceId timestamp market
    estimate bankroll config venue := rfl
  rw [hd]
  simp only [makeDecision]
  split_ifs <;> simp_all [not_lt, not_le, lt_irrefl]

/-- C1 witness: the decision invariant at a concrete market (liquidity
500), estimate 0.6 with medium confidence, bankroll 1000 and the default
configuration on the AMM venue. -/
theorem makeDecision_bet_iff_witness :
    (0 : ℚ) < mktBoundary.totalLiquidity
    ∧ ((decisionSample.action = .bet
        ↔ decisionSample.direction ≠ none ∧ 0 < decisionSample.kellyFraction
          ∧ 1 ≤ decisionSample.betAmount)
      ∧ decisionSample.traceId = "t1"
      ∧ decisionSample.marketId = mktBoundary.id
      ∧ decisionSample.question = mktBoundary.question
      ∧ decisionSample.marketProb = mktBoundary.probability
      ∧ decisionSample.estimate = (3 : ℚ)/5
      ∧ decisionSample.confidence = "medium"
      ∧ decisionSample.edge = calculateEdge ((3 : ℚ)/5) mktBoundary.probability
      ∧ decisionSample.liquidity = mktBoundary.totalLiquidity) :=
  ⟨by norm_num [mktBoundary],
    makeDecision_bet_iff (fun _ => false) (fun _ => false) "t1"
      "2026-01-01T00:00:00.000Z" mktBoundary ⟨3/5, "medium", "because"⟩
      1000 cfgDefault .manifold (by norm_num [mktBoundary])⟩

/- ------------------------------------------------------------------ -/
/- C8                                                                  -/
/- ------------------------------------------------------------------ -/

/-- C8 counterexample: at a partial-value resolution of exactly `0.5`
with direction `NO`, the code reports a loss (`actual < 0.5` is false)
while the claimed formula `(direction==YES) == (actual>0.5)` reports a
win — both sides of that equality are false. -/
theorem computeWon_half_mkt :
    ¬ (computeWon .no .mkt (1/2) = true
        ↔ ((Dir.no = Dir.yes) ↔ ((1/2 : ℚ) > 1/2))) := by
  norm_num [computeWon]
  decide

/-- C8 (amended): for partial-value (`MKT`) resolutions, `computeWon` is
true exactly when a `YES` bet has `actual > 0.5` or a `NO` bet has
`actual < 0.5` (at exactly `0.5` both directions lose); for binary
resolutions it is direction-equals-outcome. -/
theorem computeWon_characterisation (direction : Dir) (actual : ℚ) :
    (computeWon direction .mkt actual = true
      ↔ ((direction = .yes ∧ 1/2 < actual) ∨ (direction = .no ∧ actual < 1/2)))
    ∧ (computeWon direction .yes actual = true ↔ direction = .yes)
    ∧ (computeWon direction .no actual = true ↔ direction = .no) := by
  cases direction <;> simp [computeWon]

/- ------------------------------------------------------------------ -/
/- C9                                                                  -/
/- ------------------------------------------------------------------ -/

/-- C9 counterexample: a report with exactly 10 resolved forecasts —
a count that does not *exceed* 10 — still gets a feedback string. -/
theorem formatFeedback_at_ten :
    reportTen.totalResolved = 10 ∧ ¬ (10 > 10)
    ∧ (formatFeedback reportTen).isSome = true := by
  refine ⟨rfl, by omega, ?_⟩
  rw [formatFeedback]
  norm_num [reportTen]

/-- C9 (amended): `formatFeedback` returns a feedback string exactly when
the total resolved count is at least the minimum sample size of 10
(`totalResolved < 10` returns `null`). -/
theorem formatFeedback_isSome_iff (report : CalibrationReport) :
    (formatFeedback report).isSome = true ↔ 10 ≤ report.totalResolved := by
  by_cases h : report.totalResolved < 10
  · rw [formatFeedback, if_pos h]
    simp
    omega
  · rw [formatFeedback, if_neg h]
    simp
    omega

/- ------------------------------------------------------------------ -/
/- C6                                                                  -/
/- ------------------------------------------------------------------ -/

theorem resolveOne_traceId (getMarket : String → Option ManifoldMarket)
    (decisions : List TradeDecision) (nowIso : String)
    (trade : TradeExecution) :
    ∀ r ∈ resolveOne getMarket decisions nowIso trade,
      r.traceId = trade.traceId := by
  intro r hr
  unfold resolveOne at hr
  repeat' split at hr
  all_goals simp_all

theorem polyResolveOne_traceId (chainStatus : String → Option (Option Dir))
    (decisions : List TradeDecision) (nowIso : String)
    (trade : TradeExecution) :
    ∀ r ∈ polyResolveOne chainStatus decisions nowIso trade,
      r.traceId = trade.traceId := by
  intro r hr
  unfold polyResolveOne at hr
  repeat' split at hr
  all_goals simp_all

theorem runResolve_skips_existing (getMarket : String → Option ManifoldMarket)
    (nowIso : String) (trades : List TradeExecution)
    (decisions : List TradeDecision) (existing : List Resolution) :
    ∀ r ∈ runResolve getMarket nowIso trades decisions existing,
      r.traceId ∉ existing.map (·.traceId) := by
  intro r hr
  simp only [runResolve] at hr
  rw [List.mem_flatMap] at hr
  obtain ⟨t, ht, hrt⟩ := hr
  rw [List.mem_filter] at ht
  rw [resolveOne_traceId getMarket decisions nowIso t r hrt]
  simpa using ht.2

theorem runPolyResolve_skips_existing
    (chainStatus : String → Option (Option Dir)) (nowIso : String)
    (trades : List TradeExecution) (decisions : List TradeDecision)
    (existing : List Resolution) :
    ∀ r ∈ runPolyResolve chainStatus nowIso trades decisions existing,
      r.traceId ∉ existing.map (·.traceId) := by
  intro r hr
  simp only [runPolyResolve] at hr
  rw [List.mem_flatMap] at hr
  obtain ⟨t, ht, hrt⟩ := hr
  rw [List.mem_filter] at ht
  rw [polyResolveOne_traceId chainStatus decisions nowIso t r hrt]
  have h2 := ht.2
  simp only [Bool.and_eq_true] at h2
  obtain ⟨⟨⟨_, _⟩, _⟩, hMem⟩ := h2
  simpa using hMem

theorem runResolve_rerun_empty (getMarket : String → Option ManifoldMarket)
    (nowIso : String) (trades : List TradeExecution)
    (decisions : List TradeDecision) (existing : List Resolution) :
    runResolve getMarket nowIso trades decisions
      (existing ++ runResolve getMarket nowIso trades decisions existing)
      = [] := by
  simp only [runResolve]
  rw [List.flatMap_eq_nil_iff]
  intro t ht
  rw [List.mem_filter] at ht
  obtain ⟨htReal, htNew⟩ := ht
  simp only [Bool.not_eq_true', decide_eq_false_iff_not, List.map_append,
    List.mem_append, not_or] at htNew
  obtain ⟨hEx, hOut⟩ := htNew
  by_contra hne
  obtain ⟨r, hr⟩ := List.exists_mem_of_ne_nil _ hne
  apply hOut
  rw [← resolveOne_traceId getMarket decisions nowIso t r hr]
  refine List.mem_map_of_mem _ ?_
  rw [List.mem_flatMap]
  refine ⟨t, ?_, hr⟩
  rw [List.mem_filter]
  exact ⟨htReal, by simpa using hEx⟩

theorem runPolyResolve_rerun_empty
    (chainStatus : String → Option (Option Dir)) (nowIso : String)
    (trades : List TradeExecution) (decisions : List TradeDecision)
    (existing : List Resolution) :
    runPolyResolve chainStatus nowIso trades decisions
      (existing ++ runPolyResolve chainStatus nowIso trades decisions existing)
      = [] := by
  simp only [runPolyResolve]
  rw [List.flatMap_eq_nil_iff]
  intro t ht
  rw [List.mem_filter] at ht
  obtain ⟨htTrades, htPred⟩ := ht
  simp only [Bool.and_eq_true] at htPred
  obtain ⟨⟨⟨hVen, hDry⟩, hErr⟩, hMem⟩ := htPred
  simp only [Bool.not_eq_true', decide_eq_false_iff_not, List.map_append,
    List.mem_append, not_or] at hMem
  obtain ⟨hEx, hOut⟩ := hMem
  by_contra hne
  obtain ⟨r, hr⟩ := List.exists_mem_of_ne_nil _ hne
  apply hOut
  rw [← polyResolveOne_traceId chainStatus decisions nowIso t r hr]
  refine List.mem_map_of_mem _ ?_
  rw [List.mem_flatMap]
  refine ⟨t, ?_, hr⟩
  rw [List.mem_filter]
  refine ⟨htTrades, ?_⟩
  simp only [Bool.and_eq_true]
  exact ⟨⟨⟨hVen, hDry⟩, hErr⟩, by simpa using hEx⟩

/-- C6: both reconcilers process only executions whose trace identifier
is absent from the existing resolution set — every record appended in a
run carries a trace identifier not already resolved — and re-running a
reconciler over the same execution log with the same resolution sources
appends zero new records. -/
theorem reconciler_idempotent (getMarket : String → Option ManifoldMarket)
    (chainStatus : String → Option (Option Dir)) (nowIso : String)
    (trades : List TradeExecution) (decisions : List TradeDecision)
    (existing : List Resolution) :
    (∀ r ∈ runResolve getMarket nowIso trades decisions existing,
      r.traceId ∉ existing.map (·.traceId))
    ∧ (∀ r ∈ runPolyResolve chainStatus nowIso trades decisions existing,
      r.traceId ∉ existing.map (·.traceId))
    ∧ runResolve getMarket nowIso trades decisions
        (existing ++ runResolve getMarket nowIso trades decisions existing)
        = []
    ∧ runPolyResolve chainStatus nowIso trades decisions
        (existing ++ runPolyResolve chainStatus nowIso trades decisions
          existing)
        = [] :=
  ⟨runResolve_skips_existing getMarket nowIso trades decisions existing,
    runPolyResolve_skips_existing chainStatus nowIso trades decisions existing,
    runResolve_rerun_empty getMarket nowIso trades decisions existing,
    runPolyResolve_rerun_empty chainStatus nowIso trades decisions existing⟩

theorem runResolve_yes_sample :
    runResolve (fun _ => some marketResolvedYes) "2026-02-01T00:00:00.000Z"
        [tradeSample, tradePolySample] [] []
      = [resolutionYesSample] := by
  simp [runResolve, resolveOne, tradeSample, tradePolySample,
    marketResolvedYes, resolutionYesSample, jsTruthyStr, jsTruthyNum,
    lookupDecision, toMktRes, computeWon, computeRealizedPnl,
    List.filter_cons, List.filter_nil, List.flatMap_cons, List.flatMap_nil,
    Option.some_bind, Option.getD_some, Option.getD_none, reduceCtorEq,
    String.reduceEq, ne_eq]
  norm_num

theorem runPolyResolve_yes_sample :
    runPolyResolve (fun _ => some (some .yes)) "2026-02-01T00:00:00.000Z"
        [tradeSample, tradePolySample] [] []
      = [resolutionPolySample] := by
  simp [runPolyResolve, polyResolveOne, tradeSample, tradePolySample,
    resolutionPolySample, jsTruthyStr, lookupDecision, computePolyPnl,
    List.filter_cons, List.filter_nil, List.flatMap_cons, List.flatMap_nil,
    Option.some_bind, Option.getD_some, Option.getD_none, reduceCtorEq,
    String.reduceEq, ne_eq]
  norm_num

/-- C6 witness: the idempotence properties at a concrete execution log
holding one resolved Manifold bet and one resolved Polymarket bet. -/
theorem reconciler_idempotent_witness :
    resolutionYesSample.traceId ∉ ([] : List Resolution).map (·.traceId)
    ∧ resolutionPolySample.traceId ∉ ([] : List Resolution).map (·.traceId)
    ∧ runResolve (fun _ => some marketResolvedYes) "2026-02-01T00:00:00.000Z"
        [tradeSample, tradePolySample] []
        ([] ++ runResolve (fun _ => some marketResolvedYes)
          "2026-02-01T00:00:00.000Z" [tradeSample, tradePolySample] [] [])
        = []
    ∧ runPolyResolve (fun _ => some (some .yes)) "2026-02-01T00:00:00.000Z"
        [tradeSample, tradePolySample] []
        ([] ++ runPolyResolve (fun _ => some (some .yes))
          "2026-02-01T00:00:00.000Z" [tradeSample, tradePolySample] [] [])
        = [] :=
  ⟨(reconciler_idempotent (fun _ => some marketResolvedYes)
      (fun _ => some (some .yes)) "2026-02-01T00:00:00.000Z"
      [tradeSample, tradePolySample] [] []).1 resolutionYesSample
      (by rw [runResolve_yes_sample]; exact List.mem_singleton_self _),
    (reconciler_idempotent (fun _ => some marketResolvedYes)
      (fun _ => some (some .yes)) "2026-02-01T00:00:00.000Z"
      [tradeSample, tradePolySample] [] []).2.1 resolutionPolySample
      (by rw [runPolyResolve_yes_sample]; exact List.mem_singleton_self _),
    (reconciler_idempotent (fun _ => some marketResolvedYes)
      (fun _ => some (some .yes)) "2026-02-01T00:00:00.000Z"
      [tradeSample, tradePolySample] [] []).2.2.1,
    (reconciler_idempotent (fun _ => some marketResolvedYes)
      (fun _ => some (some .yes)) "2026-02-01T00:00:00.000Z"
      [tradeSample, tradePolySample] [] []).2.2.2⟩

/- ------------------------------------------------------------------ -/
/- C7                                                                  -/
/- ------------------------------------------------------------------ -/

theorem resolveOne_cancel_fields (getMarket : String → Option ManifoldMarket)
    (decisions : List TradeDecision) (nowIso : String)
    (trade : TradeExecution) :
    ∀ r ∈ resolveOne getMarket decisions nowIso trade,
      r.resolution = .cancel →
      r.won = false ∧ r.pnl = 0 ∧ r.brierScore = 0 := by
  intro r hr
  unfold resolveOne at hr
  repeat' split at hr
  all_goals simp_all

theorem computeCalibration_filter_congr {rs rs' : List Resolution}
    (h : rs.filter (fun r => r.resolution ≠ .cancel)
      = rs'.filter (fun r => r.resolution ≠ .cancel)) :
    computeCalibration rs = computeCalibration rs' := by
  simp only [computeCalibration, h]

/-- C7: every `CANCEL` record appended by the Reconciler carries
`won = false`, `pnl = 0` and `brierScore = 0`, and inserting a `CANCEL`
record anywhere in the resolution log leaves the whole calibration
report — win rate, Brier, P&L, ROI, buckets, per-confidence stats and
recent trend — unchanged. -/
theorem cancel_resolution_excluded
    (getMarket : String → Option ManifoldMarket) (nowIso : String)
    (trades : List TradeExecution) (decisions : List TradeDecision)
    (existing : List Resolution) (l₁ l₂ : List Resolution) (c : Resolution)
    (hc : c.resolution = .cancel) :
    (∀ r ∈ runResolve getMarket nowIso trades decisions existing,
      r.resolution = .cancel →
      r.won = false ∧ r.pnl = 0 ∧ r.brierScore = 0)
    ∧ computeCalibration (l₁ ++ c :: l₂) = computeCalibration (l₁ ++ l₂) := by
  constructor
  · intro r hr hres
    simp only [runResolve] at hr
    rw [List.mem_flatMap] at hr
    obtain ⟨t, _, hrt⟩ := hr
    exact resolveOne_cancel_fields getMarket decisions nowIso t r hrt hres
  · apply computeCalibration_filter_congr
    simp [List.filter_append, List.filter_cons, hc]

theorem runResolve_cancel_sample :
    runResolve (fun _ => some marketResolvedCancel)
        "2026-02-01T00:00:00.000Z" [tradeSample] [] []
      = [resolutionCancelSample] := by
  simp [runResolve, resolveOne, tradeSample, marketResolvedCancel,
    resolutionCancelSample, jsTruthyStr, jsTruthyNum, lookupDecision,
    toMktRes, computeWon, computeRealizedPnl, List.filter_cons,
    List.filter_nil, List.flatMap_cons, List.flatMap_nil, Option.some_bind,
    Option.getD_some, Option.getD_none, reduceCtorEq, String.reduceEq, ne_eq]

/-- C7 witness: the `CANCEL` record concretely produced by `runResolve`
for `tradeSample` has zeroed outcome fields, and inserting a `CANCEL`
record into a log leaves the calibration report unchanged. -/
theorem cancel_resolution_excluded_witness :
    cancelRecord.resolution = .cancel
    ∧ (resolutionCancelSample.won = false ∧ resolutionCancelSample.pnl = 0
      ∧ resolutionCancelSample.brierScore = 0)
    ∧ computeCalibration ([] ++ cancelRecord :: [])
        = computeCalibration ([] ++ []) :=
  ⟨rfl,
    (cancel_resolution_excluded (fun _ => some marketResolvedCancel)
        "2026-02-01T00:00:00.000Z" [tradeSample] [] [] [] [] cancelRecord
        rfl).1
      resolutionCancelSample
      (by rw [runResolve_cancel_sample]; exact List.mem_singleton_self _)
      rfl,
    (cancel_resolution_excluded (fun _ => some marketResolvedCancel)
        "2026-02-01T00:00:00.000Z" [tradeSample] [] [] [] [] cancelRecord
        rfl).2⟩

/- ------------------------------------------------------------------ -/
/- C10                                                                 -/
/- ------------------------------------------------------------------ -/

/-- C10: `computeCalibration` is total and never divides by zero — on a
log with no non-`CANCEL` record it returns the all-zero report (empty
buckets, zeroed per-confidence and trend triples), and every group whose
total wagered amount is zero reports ROI `0`. -/
theorem computeCalibration_total :
    (∀ rs : List Resolution, (∀ r ∈ rs, r.resolution = .cancel) →
      computeCalibration rs
        = { totalResolved := 0, winRate := 0, totalPnl := 0, roi := 0,
            avgBrierScore := 0, buckets := [],
            byConfidence := ⟨⟨0, 0, 0, 0⟩, ⟨0, 0, 0, 0⟩, ⟨0, 0, 0, 0⟩⟩,
            recentTrend := ⟨0, 0, 0⟩ })
    ∧ (∀ rs : List Resolution,
        ((rs.filter fun r => r.resolution ≠ .cancel).map
          (fun r => r.amount)).sum = 0 →
        (computeCalibration rs).roi = 0)
    ∧ (∀ group : List Resolution, (group.map (fun r => r.amount)).sum = 0 →
        (confStatsOf group).roi = 0)
    ∧ (∀ l : List Resolution,
        ((l.drop (l.length - 20)).map (fun r => r.amount)).sum = 0 →
        (computeRecentTrend l).roi = 0) := by
  refine ⟨fun rs h => ?_, fun rs h => ?_, fun group h => ?_, fun l h => ?_⟩
  · have hf : List.filter (fun r => decide (r.resolution ≠ ResOutcome.cancel))
        rs = [] := by
      rw [List.filter_eq_nil_iff]
      intro r hr
      simp [h r hr]
    simp only [computeCalibration, hf]
    rfl
  · simp only [computeCalibration]
    rw [h]
    norm_num
  · simp only [confStatsOf]
    rw [h]
    norm_num
  · simp only [computeRecentTrend]
    by_cases hc : (l.drop (l.length - 20)).length = 0
    · rw [if_pos hc]
    · rw [if_neg hc]
      rw [h]
      norm_num

/-- C10 witness: the zero report on a log holding only a `CANCEL`
record, and zero ROI on empty groups. -/
theorem computeCalibration_total_witness :
    (computeCalibration [cancelRecordB]
      = { totalResolved := 0, winRate := 0, totalPnl := 0, roi := 0,
          avgBrierScore := 0, buckets := [],
          byConfidence := ⟨⟨0, 0, 0, 0⟩, ⟨0, 0, 0, 0⟩, ⟨0, 0, 0, 0⟩⟩,
          recentTrend := ⟨0, 0, 0⟩ })
    ∧ (computeCalibration ([] : List Resolution)).roi = 0
    ∧ (confStatsOf ([] : List Resolution)).roi = 0
    ∧ (computeRecentTrend ([] : List Resolution)).roi = 0 :=
  ⟨computeCalibration_total.1 [cancelRecordB]
      (by intro r hr; rw [List.mem_singleton] at hr; rw [hr]; rfl),
    computeCalibration_total.2.1 [] rfl,
    computeCalibration_total.2.2.1 [] rfl,
    computeCalibration_total.2.2.2 [] rfl⟩

end ManifoldFarmer
